import Mathlib

/-!
# Verification of the swapctl binding (`src/main.rs`)

A shallow embedding of the single Rust source file of the repository: a
binding to the illumos `swapctl(2)` control call that counts swap devices,
lists them into a statically sized table, and (partially) adds a swap area.

The kernel side of the boundary is external nondeterminism: each embedded
operation takes the raw `swapctl` return value (`rawResult : Int`, an i32 in
reality), the value of `errno` on failure (`osErr`), and — for the list
operation — the kernel's in-place mutation of the caller's table, as
parameters.  Machine-integer casts (`res as u32`, `start as libc::off_t`)
are modelled arithmetically with explicit `% 2^w`.

Buffer lifetime, which matters for `swapctl_list` (its returned table holds
pointers into its own stack frame), is modelled by identifying each path
buffer with an allocation id (`Nat`): ids live before the call stay live
after it, while ids allocated in the call's own frame (`frameBuffers`) are
dead once the function returns, exactly as Rust drops the stack arrays
`p1`/`p2`/`p3` at the end of `swapctl_list`'s scope.
-/

namespace Swapctl

/-- `swapctl(2)` command codes, from `usr/src/uts/common/sys/swap.h`
(`const SC_ADD: i32 = 0x1;` etc. in the source). -/
def SC_ADD : Int := 0x1

/-- Command code for listing swap areas. -/
def SC_LIST : Int := 0x2

/-- Command code for removing a swap area (unused in the source, named
`_SC_REMOVE` there). -/
def SC_REMOVE : Int := 0x3

/-- Command code for querying the number of swap areas. -/
def SC_GETNSWP : Int := 0x4

/-- Command code for swap accounting info; the upper end of the range
admitted by `swapctl_cmd`'s assertion. -/
def SC_AINFO : Int := 0x5

/-- `const N_SWAPENTS: usize = 3;` — the static number of descriptor slots
the source reserves for `SC_LIST`. -/
def N_SWAPENTS : Nat := 3

/-- `libc::PATH_MAX` on illumos, the capacity of each per-slot path buffer
(`const MAXPATHLEN: usize = libc::PATH_MAX as usize;` in `swapctl_list`). -/
def MAXPATHLEN : Nat := 1024

/-- `res as u32`: reinterpretation of an `i32` syscall result as `u32`
(two's complement, arithmetically `% 2^32`). -/
def toU32 (res : Int) : Nat := (res % (2 : Int) ^ 32).toNat

/-- `start as libc::off_t`: reinterpretation of a `u64` as the signed 64-bit
`off_t` (two's complement wrap). -/
def i64ofU64 (n : Nat) : Int :=
  if n % 2 ^ 64 < 2 ^ 63 then ((n % 2 ^ 64 : Nat) : Int)
  else ((n % 2 ^ 64 : Nat) : Int) - 2 ^ 64

/-- Outcome of `swapctl_cmd`: either the assertion on the command code fails
(Rust panic, the raw call is never made), or the raw call was made and
returned `-1` (mapped to `Err(std::io::Error::last_os_error())`, carrying
`errno`), or it succeeded with `Ok(res as u32)`. -/
inductive CmdOutcome where
  | panicked : CmdOutcome
  | err : Int → CmdOutcome
  | ok : Nat → CmdOutcome
deriving DecidableEq, Repr

/-- The raw `swapctl` call was actually issued (i.e. the defensive assertion
did not fire). -/
def kernelInvoked : CmdOutcome → Bool
  | .panicked => false
  | .err _ => true
  | .ok _ => true

/-- `unsafe fn swapctl_cmd<T>(cmd: i32, data: Option<*mut T>)`.
The source first runs `assert!(cmd >= 0 && cmd <= SC_AINFO)` (panic when the
code is out of that range), then issues `swapctl(cmd, ptr)` and maps `-1` to
`Err(last_os_error())` and everything else to `Ok(res as u32)`.  The `data`
argument is only marshalled into the pointer handed to the kernel; its
effect is part of the kernel parameters, so it does not appear here. -/
def swapctl_cmd (cmd : Int) (rawResult osErr : Int) : CmdOutcome :=
  if 0 ≤ cmd ∧ cmd ≤ SC_AINFO then
    if rawResult = -1 then .err osErr
    else .ok (toU32 rawResult)
  else .panicked

/-- `pub fn swapctl_get_num_devices()` = `swapctl_cmd::<i32>(SC_GETNSWP, None)`. -/
def swapctl_get_num_devices (rawResult osErr : Int) : CmdOutcome :=
  swapctl_cmd SC_GETNSWP rawResult osErr

/-- `struct swapent`, the per-device descriptor.  `ste_path` is a
`*const c_char`; we model the pointer as the allocation id of the buffer it
points to.  The remaining fields are `off_t`/`c_long` (signed, platform
width), modelled as `Int`. -/
structure swapent where
  ste_path : Nat
  ste_start : Int
  ste_length : Int
  ste_pages : Int
  ste_free : Int
  ste_flags : Int
deriving DecidableEq, Repr

/-- `impl Default for swapent`: null path pointer and zeroed fields; the id
used here is overridden for every entry `swapctl_list` builds. -/
def swapent.default (path : Nat) : swapent :=
  { ste_path := path, ste_start := 0, ste_length := 0,
    ste_pages := 0, ste_free := 0, ste_flags := 0 }

/-- `struct swaptbl`: the `SC_LIST` argument, a slot count and the embedded
array of `N_SWAPENTS` descriptors (modelled as a list of that length). -/
structure swaptbl where
  swt_n : Int
  swt_ent : List swapent
deriving DecidableEq, Repr

/-- What `swapctl_list` produces, together with the lifetime bookkeeping of
its stack-allocated path buffers: `result` is the Rust
`std::io::Result<(usize, swaptbl)>` (the error case carrying `errno`);
`warnings` is everything the function logs (the source contains no logging
statement at all, despite the comment on `N_SWAPENTS` promising a warning,
so this is always empty); `frameBuffers` are the ids of `p1`/`p2`/`p3`,
allocated in the call's own frame; `liveAfterReturn` are the buffer ids
still live once the call has returned — the frame buffers are dropped with
the frame, so only the caller's pre-existing buffers remain. -/
structure ListOutcome where
  result : Except Int (Nat × swaptbl)
  warnings : List String
  frameBuffers : List Nat
  liveAfterReturn : List Nat
deriving Repr

/-- `pub fn swapctl_list()`.  The source stack-allocates three
`[0i8; MAXPATHLEN]` path buffers (fresh ids `firstFree`, `firstFree + 1`,
`firstFree + 2` here), builds three default `swapent`s pointing at them,
wraps them in a `swaptbl` with `swt_n = N_SWAPENTS as i32`, and calls
`swapctl_cmd(SC_LIST, Some(&mut list_req))?`.  The kernel mutates the table
in place during the call; that mutation is the parameters `kernelN` (the
value left in `swt_n`) and `kernelWrite` (applied to each entry; the
boundary contract has the kernel write path bytes *through* `ste_path`, not
replace the pointer, which theorems state as a hypothesis on `kernelWrite`
where it matters).  On success it returns `Ok((n_devices as usize,
list_req))`; on failure the `?` propagates the error.  Either way the three
path buffers die with the frame. -/
def swapctl_list (liveBefore : List Nat) (firstFree : Nat)
    (rawResult osErr : Int) (kernelN : Int)
    (kernelWrite : swapent → swapent) : ListOutcome :=
  let p1 := firstFree
  let p2 := firstFree + 1
  let p3 := firstFree + 2
  let entries : List swapent :=
    [swapent.default p1, swapent.default p2, swapent.default p3]
  let frame := [p1, p2, p3]
  match swapctl_cmd SC_LIST rawResult osErr with
  | .err e =>
      { result := .error e, warnings := [],
        frameBuffers := frame, liveAfterReturn := liveBefore }
  | .ok n =>
      let list_req : swaptbl :=
        { swt_n := kernelN, swt_ent := entries.map kernelWrite }
      { result := .ok (n, list_req), warnings := [],
        frameBuffers := frame, liveAfterReturn := liveBefore }
  | .panicked =>
      -- unreachable: SC_LIST = 2 always passes swapctl_cmd's range assertion
      { result := .error osErr, warnings := [],
        frameBuffers := frame, liveAfterReturn := liveBefore }

/-- The filled-slot count `swapctl_list` reports, when it succeeds. -/
def listCount (o : ListOutcome) : Option Nat :=
  match o.result with
  | .ok (n, _) => some n
  | .error _ => none

/-- The `ste_path` pointers (buffer ids) of the table `swapctl_list`
returns, when it succeeds. -/
def listPathIds (o : ListOutcome) : Option (List Nat) :=
  match o.result with
  | .ok (_, t) => some (t.swt_ent.map (fun e => e.ste_path))
  | .error _ => none

/-- `struct swapres`, the `SC_ADD` argument.  `sr_name` is a
`*const c_char` into the `CString` built from the caller's path; we model
it as the null-terminated byte string itself.  `sr_start`/`sr_length` are
`off_t` (signed 64-bit). -/
structure swapres where
  sr_name : List Nat
  sr_start : Int
  sr_length : Int
deriving DecidableEq, Repr

/-- How a `swapctl_add` call ends.  The first three constructors are Rust
panics that fire before the control call: `assert_eq!(start % 512, 0)`,
`assert_eq!(length % 512, 0)`, and `CString::new(name).unwrap()` (which
panics exactly when `name` holds an embedded null byte).  `panicCmdCheck`
is `swapctl_cmd`'s own assertion (unreachable here, `SC_ADD = 1` is in
range).  `panicResNonzero` is the trailing `assert!(res == 0)` after a
control call that returned neither `-1` nor `0`.  `err` is the propagated
kernel failure; `ok` is `Ok(())`. -/
inductive AddOutcome where
  | panicAlignStart : AddOutcome
  | panicAlignLength : AddOutcome
  | panicCString : AddOutcome
  | panicCmdCheck : AddOutcome
  | panicResNonzero : Nat → AddOutcome
  | err : Int → AddOutcome
  | ok : AddOutcome
deriving DecidableEq, Repr

/-- A `swapctl_add` outcome paired with the request it forwarded to the
kernel: `request = some req` exactly when the control call was issued with
`req` as its argument. -/
structure AddResult where
  outcome : AddOutcome
  request : Option swapres
deriving DecidableEq, Repr

/-- The alignment assertions (and only those) fired. -/
def alignRejected : AddOutcome → Bool
  | .panicAlignStart => true
  | .panicAlignLength => true
  | _ => false

/-- The control call was actually issued during `swapctl_add` (it is for
`err`, `ok` and `panicResNonzero`, whose assertions fire only after the
kernel returned). -/
def addKernelInvoked (r : AddResult) : Bool :=
  match r.outcome with
  | .err _ => true
  | .ok => true
  | .panicResNonzero _ => true
  | _ => false

/-- `pub fn swapctl_add(name: &str, start: u64, length: u64)`.  The path is
modelled as its byte string (`List Nat`).  In source order: the two
512-alignment assertions, then `CString::new(name).unwrap()` (panics on an
embedded null byte; note the empty string succeeds), then the `swapres` is
built with `start as libc::off_t` / `length as libc::off_t` (u64→i64 wrap),
printed, and handed to `swapctl_cmd(SC_ADD, Some(&mut add_req))?`; finally
`assert!(res == 0)` and `Ok(())`. -/
def swapctl_add (name : List Nat) (start length : Nat)
    (rawResult osErr : Int) : AddResult :=
  if start % 512 = 0 then
    if length % 512 = 0 then
      if name.contains 0 then
        { outcome := .panicCString, request := none }
      else
        let add_req : swapres :=
          { sr_name := name ++ [0],
            sr_start := i64ofU64 start,
            sr_length := i64ofU64 length }
        match swapctl_cmd SC_ADD rawResult osErr with
        | .panicked => { outcome := .panicCmdCheck, request := none }
        | .err e => { outcome := .err e, request := some add_req }
        | .ok res =>
            if res = 0 then { outcome := .ok, request := some add_req }
            else { outcome := .panicResNonzero res, request := some add_req }
    else { outcome := .panicAlignLength, request := none }
  else { outcome := .panicAlignStart, request := none }

/-- One line of `main`'s output, kept structural rather than rendered:
the `swapctl getnswp = r` print, the `swapctl listswap = {:?}` debug print
of the whole table, one `swapfile ...` line per populated entry, and the
final `add = {:?}` print.  (That last statement of the source refers to a
variable `add` whose defining call on the previous line is commented out,
so the file as written does not even compile; we model the print as a fixed
line and note the defect here.) -/
inductive OutLine where
  | getnswp : Int → OutLine
  | listswap : swaptbl → OutLine
  | swapfile : swapent → OutLine
  | addResult : OutLine
deriving DecidableEq, Repr

/-- What a run of `main` produces: the lines printed before it terminates,
and whether it terminated by panic (abort) instead of running to the end. -/
structure MainOutcome where
  output : List OutLine
  panicked : Bool
deriving DecidableEq, Repr

/-- `fn main()`.  It first issues the raw `swapctl(SC_GETNSWP, null)` call
directly and prints the result whatever it is (a failing call prints `-1`
and the run continues).  Then `swapctl_list().unwrap()`: a list failure
panics on the spot, aborting the run.  On success it prints the table, then
one line per reported entry — `lr.swt_ent[i]` panics out of bounds if the
reported count exceeds the three slots — and finally the `add = {:?}`
line. -/
def main_run (getnswpRaw : Int) (firstFree : Nat) (listRaw listErr : Int)
    (kernelN : Int) (kernelWrite : swapent → swapent) : MainOutcome :=
  let l1 := OutLine.getnswp getnswpRaw
  match (swapctl_list [] firstFree listRaw listErr kernelN kernelWrite).result with
  | .error _ => { output := [l1], panicked := true }
  | .ok (n, lr) =>
      let l2 := OutLine.listswap lr
      if n ≤ lr.swt_ent.length then
        { output := [l1, l2] ++ (lr.swt_ent.take n).map OutLine.swapfile
            ++ [OutLine.addResult],
          panicked := false }
      else
        { output := [l1, l2] ++ lr.swt_ent.map OutLine.swapfile,
          panicked := true }

/-! ## Helper lemmas (shared) -/

theorem swapctl_cmd_of_in_range (cmd raw e : Int) (h1 : 0 ≤ cmd)
    (h2 : cmd ≤ SC_AINFO) :
    swapctl_cmd cmd raw e =
      if raw = -1 then .err e else .ok (toU32 raw) := by
  unfold swapctl_cmd
  rw [if_pos ⟨h1, h2⟩]

theorem swapctl_cmd_ok (cmd raw e : Int) (h1 : 0 ≤ cmd) (h2 : cmd ≤ SC_AINFO)
    (h3 : raw ≠ -1) : swapctl_cmd cmd raw e = .ok (toU32 raw) := by
  rw [swapctl_cmd_of_in_range cmd raw e h1 h2, if_neg h3]

theorem swapctl_cmd_err (cmd e : Int) (h1 : 0 ≤ cmd) (h2 : cmd ≤ SC_AINFO) :
    swapctl_cmd cmd (-1) e = .err e := by
  rw [swapctl_cmd_of_in_range cmd (-1) e h1 h2, if_pos rfl]

theorem swapctl_list_ok (live : List Nat) (f : Nat) (raw e kN : Int)
    (kw : swapent → swapent) (h : raw ≠ -1) :
    swapctl_list live f raw e kN kw =
      { result := .ok (toU32 raw,
          { swt_n := kN,
            swt_ent := [kw (swapent.default f), kw (swapent.default (f + 1)),
              kw (swapent.default (f + 2))] }),
        warnings := [], frameBuffers := [f, f + 1, f + 2],
        liveAfterReturn := live } := by
  simp only [swapctl_list,
    swapctl_cmd_ok SC_LIST raw e (by norm_num [SC_LIST]) (by norm_num [SC_LIST, SC_AINFO]) h,
    List.map]

theorem swapctl_list_err (live : List Nat) (f : Nat) (e kN : Int)
    (kw : swapent → swapent) :
    swapctl_list live f (-1) e kN kw =
      { result := .error e, warnings := [], frameBuffers := [f, f + 1, f + 2],
        liveAfterReturn := live } := by
  simp only [swapctl_list,
    swapctl_cmd_err SC_LIST e (by norm_num [SC_LIST]) (by norm_num [SC_LIST, SC_AINFO])]

/-! ## Claims -/

/-- C4, counterexample: command code 0 is outside the defined set 1–5, yet
`swapctl_cmd 0 …` passes the defensive assertion (`cmd >= 0 && cmd <= 5`)
and the raw control call IS issued — refuting the claim that every code
outside 1–5, "also 0", is rejected and never forwarded. -/
theorem C4_counterexample :
    kernelInvoked (swapctl_cmd 0 7 0) = true ∧
    swapctl_cmd 0 7 0 ≠ CmdOutcome.panicked := by
  exact ⟨rfl, by decide⟩

/-- C4, amended: the defensive check of `swapctl_cmd` rejects exactly the
codes outside 0–5 before the call (in particular code 6 is rejected and
never forwarded), but code 0 — though outside the defined command set 1–5 —
passes the check and is forwarded to the kernel. -/
theorem C4_amended_holds (cmd raw e : Int) :
    ((cmd < 0 ∨ SC_AINFO < cmd) → swapctl_cmd cmd raw e = .panicked) ∧
    swapctl_cmd 6 raw e = .panicked ∧
    kernelInvoked (swapctl_cmd 0 raw e) = true := by
  refine ⟨?_, ?_, ?_⟩
  · intro h
    unfold swapctl_cmd
    rw [if_neg]
    rintro ⟨hl, hr⟩
    rcases h with h | h
    · omega
    · omega
  · unfold swapctl_cmd SC_AINFO
    rw [if_neg]
    rintro ⟨-, hr⟩
    omega
  · rw [swapctl_cmd_of_in_range 0 raw e le_rfl (by norm_num [SC_AINFO])]
    by_cases h : raw = -1
    · rw [if_pos h]; rfl
    · rw [if_neg h]; rfl

/-- C4, witness for the amended theorem at concrete inputs: code 6 panics
before the call, code 0 reaches the kernel. -/
theorem C4_witness :
    swapctl_cmd 6 5 0 = CmdOutcome.panicked ∧
    kernelInvoked (swapctl_cmd 0 5 0) = true :=
  ⟨(C4_amended_holds 6 5 0).2.1, (C4_amended_holds 0 5 0).2.2⟩

/-- C5: for every in-range command code, `swapctl_cmd` — and hence
`swapctl_get_num_devices` — yields the failure result carrying the
platform's last error (`errno`) exactly when the raw call returns `-1`, and
any other raw result becomes the `Ok(res as u32)` success value; on kernel
failure the caller observes the structured error, not a panic and not a
success value `0`. -/
theorem C5_err_iff_neg_one (cmd raw e : Int) (h1 : 0 ≤ cmd)
    (h2 : cmd ≤ SC_AINFO) :
    (swapctl_cmd cmd raw e = .err e ↔ raw = -1) ∧
    (raw ≠ -1 → swapctl_cmd cmd raw e = .ok (toU32 raw)) ∧
    (swapctl_get_num_devices raw e = .err e ↔ raw = -1) ∧
    swapctl_get_num_devices (-1) e ≠ CmdOutcome.panicked ∧
    (∀ n : Nat, swapctl_get_num_devices (-1) e ≠ CmdOutcome.ok n) := by
  have hget : ∀ r : Int, swapctl_get_num_devices r e = swapctl_cmd SC_GETNSWP r e :=
    fun _ => rfl
  have hrange : ∀ r : Int, (swapctl_cmd SC_GETNSWP r e =
      if r = -1 then .err e else .ok (toU32 r)) :=
    fun r => swapctl_cmd_of_in_range SC_GETNSWP r e (by norm_num [SC_GETNSWP])
      (by norm_num [SC_GETNSWP, SC_AINFO])
  refine ⟨?_, ?_, ?_, ?_, ?_⟩
  · rw [swapctl_cmd_of_in_range cmd raw e h1 h2]
    constructor
    · intro h
      by_contra hne
      rw [if_neg hne] at h
      exact CmdOutcome.noConfusion h
    · intro h
      rw [if_pos h]
  · intro h
    exact swapctl_cmd_ok cmd raw e h1 h2 h
  · rw [hget, hrange]
    constructor
    · intro h
      by_contra hne
      rw [if_neg hne] at h
      exact CmdOutcome.noConfusion h
    · intro h
      rw [if_pos h]
  · rw [hget, hrange, if_pos rfl]
    exact fun h => CmdOutcome.noConfusion h
  · intro n
    rw [hget, hrange, if_pos rfl]
    exact fun h => CmdOutcome.noConfusion h

/-- C5, witness at concrete inputs: a raw `-1` from the get-count call
surfaces as the structured error carrying `errno = 13`, and a raw `2`
surfaces as the success value `2`. -/
theorem C5_witness :
    swapctl_get_num_devices (-1) 13 = CmdOutcome.err 13 ∧
    swapctl_cmd 4 2 13 = CmdOutcome.ok (toU32 2) := by
  have ha := C5_err_iff_neg_one 4 (-1) 13 (by norm_num) (by norm_num [SC_AINFO])
  have hb := C5_err_iff_neg_one 4 2 13 (by norm_num) (by norm_num [SC_AINFO])
  exact ⟨ha.2.2.1.mpr rfl, hb.2.1 (by norm_num)⟩

/-- C3, counterexample: the empty path is NOT rejected — with an empty
name and aligned zero offsets, `CString::new("")` succeeds and the control
call is issued, refuting the claim that an empty path is rejected before
any kernel interaction. -/
theorem C3_counterexample :
    addKernelInvoked (swapctl_add [] 0 0 0 0) = true := rfl

/-- C3, amended: a path containing an embedded null byte is rejected before
any kernel interaction (the `CString::new(...).unwrap()` panic, or an
earlier alignment panic — either way the control call is never issued); the
empty path, however, is not rejected and is forwarded to the kernel. -/
theorem C3_amended_holds (name : List Nat) (start length : Nat) (raw e : Int)
    (h : name.contains 0 = true) :
    addKernelInvoked (swapctl_add name start length raw e) = false := by
  unfold swapctl_add
  by_cases h1 : start % 512 = 0
  · by_cases h2 : length % 512 = 0
    · rw [if_pos h1, if_pos h2, if_pos h]; rfl
    · rw [if_pos h1, if_neg h2]; rfl
  · rw [if_neg h1]; rfl

/-- C3, witness for the amended theorem: the one-byte path `[0]` holds an
embedded null byte and the control call is never issued. -/
theorem C3_witness :
    ([0] : List Nat).contains 0 = true ∧
    addKernelInvoked (swapctl_add [0] 0 0 0 0) = false :=
  ⟨by decide, C3_amended_holds [0] 0 0 0 0 (by decide)⟩

/-- C1, counterexample: `swapctl_list` performs no bound check on the
kernel's raw result — when the raw `SC_LIST` result is 4, the reported
filled-slot count is 4, strictly greater than the static capacity
`N_SWAPENTS = 3` actually supplied, refuting the claim that the reported
count can never exceed that bound. -/
theorem C1_counterexample :
    listCount (swapctl_list [] 0 4 0 3 (fun x => x)) = some 4 ∧
    ¬(4 ≤ N_SWAPENTS) :=
  ⟨rfl, by decide⟩

/-- C1, amended: `swapctl_list` reports exactly the kernel's raw result as
the count, unchecked; the reported count is ≤ `N_SWAPENTS` whenever the
kernel's raw result is ≤ 3 (as the boundary contract for a table with
`swt_n = 3` provides), but a larger raw result is passed through
unchanged. -/
theorem C1_amended_holds (live : List Nat) (f : Nat) (raw e kN : Int)
    (kw : swapent → swapent) (h0 : 0 ≤ raw) (h3 : raw ≤ 3) :
    listCount (swapctl_list live f raw e kN kw) = some raw.toNat ∧
    raw.toNat ≤ N_SWAPENTS := by
  have hne : raw ≠ -1 := by omega
  rw [swapctl_list_ok live f raw e kN kw hne]
  refine ⟨?_, by unfold N_SWAPENTS; omega⟩
  have h32 : (2 : Int) ^ 32 = 4294967296 := by norm_num
  have ht : toU32 raw = raw.toNat := by
    unfold toU32
    rw [h32]
    omega
  rw [ht]
  rfl

/-- C1, witness for the amended theorem: raw kernel result 2 is reported as
count 2, within the capacity of 3. -/
theorem C1_witness :
    listCount (swapctl_list [] 0 2 0 3 (fun x => x)) = some 2 ∧
    2 ≤ N_SWAPENTS :=
  C1_amended_holds [] 0 2 0 3 (fun x => x) (by norm_num) (by norm_num)

/-- C2 (code bug): in the anomalous scenario — a system whose true device
count (4) exceeds the static capacity of 3 — `swapctl_list` emits no
warning and no other signal, whether the kernel reports the clamped
capacity 3 or the true count 4: the function contains no logging statement
at all, although the source's own comment on `N_SWAPENTS` promises "we log
a warning" and the spec requires a detectable anomaly signal. -/
theorem C2_no_warning_emitted :
    (swapctl_list [] 0 3 0 3 (fun x => x)).warnings = [] ∧
    listCount (swapctl_list [] 0 3 0 3 (fun x => x)) = some 3 ∧
    (swapctl_list [] 0 4 0 3 (fun x => x)).warnings = [] ∧
    listCount (swapctl_list [] 0 4 0 3 (fun x => x)) = some 4 :=
  ⟨rfl, rfl, rfl, rfl⟩

/-- C6: the 512-alignment validation of `swapctl_add` accepts every
start/length pair in which both values are multiples of 512 (the alignment
assertions do not fire and execution proceeds), and for every pair in which
at least one value is not a multiple of 512 it rejects the call — the
corresponding assertion panics — before the control call is ever issued. -/
theorem C6_alignment_validation (name : List Nat) (start length : Nat)
    (raw e : Int) :
    ((start % 512 = 0 ∧ length % 512 = 0) →
      alignRejected (swapctl_add name start length raw e).outcome = false) ∧
    (¬(start % 512 = 0 ∧ length % 512 = 0) →
      alignRejected (swapctl_add name start length raw e).outcome = true ∧
      addKernelInvoked (swapctl_add name start length raw e) = false) := by
  constructor
  · rintro ⟨h1, h2⟩
    by_cases hn : (0 : Nat) ∈ name
    · simp [swapctl_add, h1, h2, hn, alignRejected]
    · rcases hc : swapctl_cmd SC_ADD raw e with _ | e2 | n
      · simp [swapctl_add, h1, h2, hn, hc, alignRejected]
      · simp [swapctl_add, h1, h2, hn, hc, alignRejected]
      · by_cases hr : n = 0
        · simp [swapctl_add, h1, h2, hn, hc, hr, alignRejected]
        · simp [swapctl_add, h1, h2, hn, hc, hr, alignRejected]
  · intro h
    by_cases h1 : start % 512 = 0
    · have h2 : ¬length % 512 = 0 := fun hh => h ⟨h1, hh⟩
      simp [swapctl_add, h1, h2, alignRejected, addKernelInvoked]
    · simp [swapctl_add, h1, alignRejected, addKernelInvoked]

/-- C6, witness at concrete inputs: the aligned pair (512, 1024) passes the
alignment validation; the misaligned pair (513, 512) panics on the
alignment assertion and the control call is never issued. -/
theorem C6_witness :
    alignRejected (swapctl_add [47] 512 1024 0 0).outcome = false ∧
    alignRejected (swapctl_add [47] 513 512 0 0).outcome = true ∧
    addKernelInvoked (swapctl_add [47] 513 512 0 0) = false := by
  refine ⟨(C6_alignment_validation [47] 512 1024 0 0).1
    ⟨by norm_num, by norm_num⟩, ?_, ?_⟩
  · exact ((C6_alignment_validation [47] 513 512 0 0).2 (by omega)).1
  · exact ((C6_alignment_validation [47] 513 512 0 0).2 (by omega)).2

/-- C7, counterexample: when the list sub-operation fails (raw result `-1`,
`errno` 22), `main` panics at `swapctl_list().unwrap()` and aborts the run:
only the get-count line printed before it survives, and nothing after the
failed sub-operation is printed — refuting the claim that `main` prints the
partial results and the failure rather than aborting the run on a failed
sub-operation. -/
theorem C7_counterexample :
    main_run 5 0 (-1) 22 3 (fun x => x) =
      { output := [OutLine.getnswp 5], panicked := true } := rfl

/-- C7, amended: `main` continues past a failing raw get-count call —
printing its `-1` result and carrying on — but a failing list sub-operation
aborts the run by panic (`unwrap`), leaving only the output gathered before
it; it does not print the remaining results. -/
theorem C7_amended_holds (g : Int) (f : Nat) (e kN : Int)
    (kw : swapent → swapent) :
    main_run g f (-1) e kN kw =
      { output := [OutLine.getnswp g], panicked := true } ∧
    (main_run (-1) f 0 e kN kw).panicked = false ∧
    (main_run (-1) f 0 e kN kw).output.head? = some (OutLine.getnswp (-1)) := by
  refine ⟨?_, ?_, ?_⟩
  · unfold main_run
    rw [swapctl_list_err [] f e kN kw]
  · unfold main_run
    rw [swapctl_list_ok [] f 0 e kN kw (by norm_num)]
    rfl
  · unfold main_run
    rw [swapctl_list_ok [] f 0 e kN kw (by norm_num)]
    rfl

/-- C8 (code bug): on a successful one-device list call, every `ste_path`
pointer of the table `swapctl_list` returns is one of the three buffers
allocated in the call's own stack frame (`p1`/`p2`/`p3`, ids 0, 1, 2 here),
and none of those buffers is live once the call has returned — the exposed
path data is a set of dangling pointers into the dead frame, not an owned
copy, and `main` dereferences them after the return. -/
theorem C8_dangling_paths :
    listPathIds (swapctl_list [] 0 1 0 1 (fun x => x)) = some [0, 1, 2] ∧
    (swapctl_list [] 0 1 0 1 (fun x => x)).frameBuffers = [0, 1, 2] ∧
    (swapctl_list [] 0 1 0 1 (fun x => x)).liveAfterReturn = [] :=
  ⟨rfl, rfl, rfl⟩

/-- C9: on a validated add (aligned offsets, encodable path) where the raw
control-call result is an `i32`, `swapctl_add` returns `Ok(())` exactly when
the raw result is 0; a positive raw result trips the trailing
`assert!(res == 0)` and panics instead of returning either success or a
structured error; and a raw `-1` propagates as the structured kernel
error. -/
theorem C9_add_success_iff_zero (name : List Nat) (start length : Nat)
    (raw e : Int) (h1 : start % 512 = 0) (h2 : length % 512 = 0)
    (h3 : ¬(0 : Nat) ∈ name) (hlo : -(2 ^ 31) ≤ raw) (hhi : raw < 2 ^ 31) :
    ((swapctl_add name start length raw e).outcome = AddOutcome.ok ↔ raw = 0) ∧
    (0 < raw → (swapctl_add name start length raw e).outcome =
      AddOutcome.panicResNonzero raw.toNat) ∧
    (raw = -1 → (swapctl_add name start length raw e).outcome =
      AddOutcome.err e) := by
  have hA : (0 : Int) ≤ SC_ADD := by norm_num [SC_ADD]
  have hB : SC_ADD ≤ SC_AINFO := by norm_num [SC_ADD, SC_AINFO]
  have h32 : (2 : Int) ^ 32 = 4294967296 := by norm_num
  have h31 : (2 : Int) ^ 31 = 2147483648 := by norm_num
  rw [h31] at hlo hhi
  refine ⟨?_, ?_, ?_⟩
  · constructor
    · intro h
      by_cases hneg : raw = -1
      · exfalso
        subst hneg
        simp [swapctl_add, h1, h2, h3, swapctl_cmd_err SC_ADD e hA hB] at h
      · by_cases hz : toU32 raw = 0
        · unfold toU32 at hz
          rw [h32] at hz
          omega
        · exfalso
          simp [swapctl_add, h1, h2, h3,
            swapctl_cmd_ok SC_ADD raw e hA hB hneg, hz] at h
    · intro h
      subst h
      simp [swapctl_add, h1, h2, h3,
        swapctl_cmd_ok SC_ADD 0 e hA hB (by norm_num), toU32]
  · intro hpos
    have hneg : raw ≠ -1 := by omega
    have ht : toU32 raw = raw.toNat := by
      unfold toU32
      rw [h32]
      omega
    have hz : ¬toU32 raw = 0 := by
      rw [ht]
      omega
    simp [swapctl_add, h1, h2, h3,
      swapctl_cmd_ok SC_ADD raw e hA hB hneg, hz, ht]
    rw [if_neg (by omega : ¬raw ≤ 0)]
  · intro hm1
    subst hm1
    simp [swapctl_add, h1, h2, h3, swapctl_cmd_err SC_ADD e hA hB]

/-- C9, witness at concrete inputs: raw 0 yields `Ok(())`; raw 5 trips the
`assert!(res == 0)` panic. -/
theorem C9_witness :
    (swapctl_add [47] 512 512 0 0).outcome = AddOutcome.ok ∧
    (swapctl_add [47] 512 512 5 0).outcome = AddOutcome.panicResNonzero 5 := by
  have ha := C9_add_success_iff_zero [47] 512 512 0 0 (by norm_num)
    (by norm_num) (by decide) (by norm_num) (by norm_num)
  have hb := C9_add_success_iff_zero [47] 512 512 5 0 (by norm_num)
    (by norm_num) (by decide) (by norm_num) (by norm_num)
  exact ⟨ha.1.mpr rfl, hb.2.1 (by norm_num)⟩

/-- C10: for every 512-aligned start offset in `[2^63, 2^64)`, the
`start as libc::off_t` cast in `swapctl_add` wraps into a negative
`sr_start` in the descriptor, and the request is still forwarded to the
kernel — no validation rejects the wrapped value (the same holds for
`sr_length`). -/
theorem C10_wrap_negative_forwarded (name : List Nat) (start length : Nat)
    (raw e : Int) (h1 : start % 512 = 0) (h2 : length % 512 = 0)
    (h3 : ¬(0 : Nat) ∈ name) (hlo : 2 ^ 63 ≤ start) (hhi : start < 2 ^ 64) :
    (swapctl_add name start length raw e).request =
      some { sr_name := name ++ [0], sr_start := i64ofU64 start,
             sr_length := i64ofU64 length } ∧
    i64ofU64 start < 0 ∧
    addKernelInvoked (swapctl_add name start length raw e) = true := by
  have hA : (0 : Int) ≤ SC_ADD := by norm_num [SC_ADD]
  have hB : SC_ADD ≤ SC_AINFO := by norm_num [SC_ADD, SC_AINFO]
  have hneg_start : i64ofU64 start < 0 := by
    unfold i64ofU64
    rw [Nat.mod_eq_of_lt hhi, if_neg (Nat.not_lt.mpr hlo)]
    have hc : ((start : Nat) : Int) < (2 : Int) ^ 64 := by exact_mod_cast hhi
    linarith
  refine ⟨?_, hneg_start, ?_⟩
  · by_cases hneg : raw = -1
    · subst hneg
      simp [swapctl_add, h1, h2, h3, swapctl_cmd_err SC_ADD e hA hB]
    · by_cases hz : toU32 raw = 0 <;>
        simp [swapctl_add, h1, h2, h3,
          swapctl_cmd_ok SC_ADD raw e hA hB hneg, hz]
  · by_cases hneg : raw = -1
    · subst hneg
      simp [swapctl_add, h1, h2, h3, swapctl_cmd_err SC_ADD e hA hB,
        addKernelInvoked]
    · by_cases hz : toU32 raw = 0 <;>
        simp [swapctl_add, h1, h2, h3,
          swapctl_cmd_ok SC_ADD raw e hA hB hneg, hz, addKernelInvoked]

/-- C10, witness at a concrete input: start `2^63` (a multiple of 512)
wraps to a negative `sr_start` and the control call is still issued. -/
theorem C10_witness :
    i64ofU64 (2 ^ 63) < 0 ∧
    addKernelInvoked (swapctl_add [47] (2 ^ 63) 512 0 0) = true := by
  have h := C10_wrap_negative_forwarded [47] (2 ^ 63) 512 0 0 (by norm_num)
    (by norm_num) (by decide) le_rfl (by norm_num)
  exact ⟨h.2.1, h.2.2⟩

end Swapctl
